import Mathlib

/-!
Verification of the OSM-XML-to-RDF-Turtle converter
(file `function/api-rdf/handler.py` of eticaaibot/openstreetmap-serverless-functions).

The Python source is shallowly embedded below.  Python-specific semantics are
made explicit:

* Python string containment (`a in b`, substring test) is `pyIn`;
* Python `list.remove` (which raises `ValueError` when the element is absent)
  is `listRemove`, returning `Except`;
* Python truthiness of optional values (`None`, `0`, `0.0`, empty string and
  empty list are falsy) is the family of `truthy*` functions;
* Python `str(...)` applied to an optional value renders `None` as the string
  `None` (`pyOptIntStr`, `pyOptStr`);
* Python float values are modelled as rationals; `ratPyStr` reproduces the
  `str(float)` rendering for the values exercised here (integral values print
  with one trailing `.0` decimal, exactly as CPython prints them).

Fallible operations of the source (`list.remove`, attribute access on `None`)
are embedded with `Except`.  Rendering (`to_ttl`) is total in the source for
the element kinds node / way / relation, and is embedded as a total function;
the `KeyError` Python would raise on an element kind outside the
`OSM_ELEMENT_PREFIX` table is outside the scope of the claims, which only use
the kinds in the table.
-/

/-- Python string prefix test on character lists. -/
def isPrefixB : List Char → List Char → Bool
  | [], _ => true
  | _ :: _, [] => false
  | a :: as, b :: bs => a = b && isPrefixB as bs

/-- Python substring test on character lists: the first list occurs
contiguously in the second. -/
def isInfixB (needle : List Char) : List Char → Bool
  | [] => isPrefixB needle []
  | c :: rest => isPrefixB needle (c :: rest) || isInfixB needle rest

/-- Python `a in b` for strings: `a` is a substring of `b`. -/
def pyIn (a b : String) : Bool := isInfixB a.data b.data

/-- Python `list.remove(x)`: removes the first occurrence of `x`, raising
`ValueError` when `x` is not in the list. -/
def listRemove (l : List Nat) (x : Nat) : Except String (List Nat) :=
  match l with
  | [] => Except.error "ValueError"
  | y :: ys =>
    if y = x then Except.ok ys
    else
      match listRemove ys x with
      | Except.error e => Except.error e
      | Except.ok ys2 => Except.ok (y :: ys2)

/-- Python truthiness of an optional int (`None` and `0` are falsy). -/
def truthyInt : Option Int → Bool
  | none => false
  | some n => n ≠ 0

/-- Python truthiness of an optional string (`None` and `""` are falsy). -/
def truthyStr : Option String → Bool
  | none => false
  | some s => s ≠ ""

/-- Python truthiness of an optional float, floats modelled as rationals
(`None` and `0.0` are falsy). -/
def truthyRat : Option ℚ → Bool
  | none => false
  | some q => q ≠ 0

/-- Python truthiness of an optional list (`None` and `[]` are falsy). -/
def truthyList : Option (List String) → Bool
  | none => false
  | some l => ! l.isEmpty

/-- Python `str(...)` of an optional int; `str(None)` is the string `None`. -/
def pyOptIntStr : Option Int → String
  | none => "None"
  | some n => toString n

/-- Python `str(...)` of an optional string; `None` renders as `None`. -/
def pyOptStr : Option String → String
  | none => "None"
  | some s => s

/-- CPython `str` of a float, modelled on rationals, for the integral values
exercised by the claims: an integral float prints with a trailing `.0`. -/
def ratPyStr (q : ℚ) : String :=
  if q.den = 1 then toString q.num ++ ".0" else toString q

/-- Python `str(...)` of an optional float. -/
def pyOptRatStr : Option ℚ → String
  | none => "None"
  | some q => ratPyStr q

/-- Python `s.split(sep)` for the one-character separator newline, on
character lists: split into the (possibly empty) groups between
newlines. -/
def splitOnNl : List Char → List (List Char)
  | [] => [[]]
  | c :: cs =>
    if c = '\n' then [] :: splitOnNl cs
    else
      match splitOnNl cs with
      | [] => [[c]]
      | g :: gs => (c :: g) :: gs

/-- Python `data_xml.split("\n")`. -/
def pySplitNl (s : String) : List String := (splitOnNl s.data).map String.mk

/-- The fixed Turtle preamble, source list `RDF_TURTLE_PREFIXES`. -/
def RDF_TURTLE_PREFIXES : List String := [
  "PREFIX geo: <http://www.opengis.net/ont/geosparql#>",
  "PREFIX osmnode: <https://www.openstreetmap.org/node/>",
  "PREFIX osmrel: <https://www.openstreetmap.org/relation/>",
  "PREFIX osmway: <https://www.openstreetmap.org/way/>",
  "PREFIX osmm: <https://example.org/todo-meta/>",
  "PREFIX osmt: <https://wiki.openstreetmap.org/wiki/Key:>",
  "PREFIX osmx: <https://example.org/todo-xref/>",
  "PREFIX wikidata: <http://www.wikidata.org/entity/>",
  "PREFIX xsd: <http://www.w3.org/2001/XMLSchema#>"]

/-- The source dict `OSM_ELEMENT_PREFIX` (subject-prefix per element kind),
as an optional-valued lookup; `none` corresponds to a Python `KeyError`. -/
def OSM_ELEMENT_PREFIX_TABLE (tag : String) : Option String :=
  if tag = "node" then some "osmnode:"
  else if tag = "relation" then some "osmrel:"
  else if tag = "tag" then some "osmt:"
  else if tag = "way" then some "osmway:"
  else none

/-- The source dict `OSM_ELEMENT_TYPE_LITERAL`.  Note the third key is the
string `rel`, not `relation`. -/
def OSM_ELEMENT_TYPE_LITERAL (tag : String) : Option String :=
  if tag = "node" then some "n"
  else if tag = "way" then some "w"
  else if tag = "rel" then some "r"
  else none

/-- Character-level body of `osmrdf_tagkey_encode`: each space becomes the
three characters `%20`, every other character passes through.  This is the
Python expression `raw_tag.replace(' ', '%20')` (a single-character pattern
replace substitutes every occurrence independently). -/
def encodeChars : List Char → List Char
  | [] => []
  | c :: cs => (if c = ' ' then ['%', '2', '0'] else [c]) ++ encodeChars cs

/-- Source function `osmrdf_tagkey_encode`. -/
def osmrdf_tagkey_encode (raw_tag : String) : String :=
  String.mk (encodeChars raw_tag.data)

/-- `OSMElementTagValueCast.can_cast` from the source: only the key
`wikidata` is recognized. -/
def OSMElementTagValueCast.can_cast (tagkey : String) : Bool :=
  tagkey = "wikidata"

/-- `OSMElementTagValueCast.to_ttl` from the source. -/
def OSMElementTagValueCast.to_ttl (tagkey tagvalue : String) : String :=
  "    osmx:" ++ tagkey ++ " wikidata:" ++ tagvalue ++ " ;"

/-- `OSMElementFilter` from the source: an optional allow-list
(`xml_tags`) and an optional deny-list (`xml_tags_not`), both `None`
unless set. -/
structure OSMElementFilter where
  xml_tags : Option (List String) := none
  xml_tags_not : Option (List String) := none
deriving DecidableEq

/-- `OSMElementFilter.can_tag` from the source.  The Python conditions use
truthiness, so a configured-but-empty list behaves like an absent one. -/
def OSMElementFilter.can_tag (f : OSMElementFilter) (tag : String) : Bool :=
  if ! truthyList f.xml_tags && ! truthyList f.xml_tags_not then true
  else if (! truthyList f.xml_tags || decide (tag ∈ f.xml_tags.getD []))
      && (! truthyList f.xml_tags_not || ! decide (tag ∈ f.xml_tags_not.getD [])) then
    true
  else false

/-- `OSMElement` from the source.  Fields absent from the XML attribute dict
are `None` in Python, hence `Option` here; the raw child lists
(`_el_osm_tags`, `_el_osm_nds`, `_el_osm_members`) may be `None` or a list in
Python, but rendering only tests their truthiness and iterates, so `None` and
`[]` are indistinguishable and both are embedded as `[]`.  The tag caster
object carries no state used by rendering, so its presence is a `Bool`. -/
structure OSMElement where
  tag : String
  id : Option Int := none
  version : Option String := none
  changeset : Option Int := none
  timestamp : Option String := none
  user : Option String := none
  userid : Option Int := none
  lat : Option ℚ := none
  lon : Option ℚ := none
  el_osm_tags : List (String × String) := []
  el_osm_nds : List Int := []
  el_osm_members : List (String × Int × Option String) := []
  xml_filter : Option OSMElementFilter := none
  tagcaster : Bool := false

/-- `_basegroup`, computed in `OSMElement.__init__`:
`OSM_ELEMENT_PREFIX[tag] + str(self.id)`. -/
def OSMElement.basegroup (el : OSMElement) : String :=
  (OSM_ELEMENT_PREFIX_TABLE el.tag).getD "" ++ pyOptIntStr el.id

/-- The `osmm:changeset` line of `to_ttl` (emitted when changeset is truthy). -/
def OSMElement.changesetLines (el : OSMElement) : List String :=
  if truthyInt el.changeset then
    ["    osmm:changeset " ++ pyOptIntStr el.changeset ++ " ;"]
  else []

/-- The `osmm:loc` line of `to_ttl`.  The guard is the Python truthiness test
`if self.lat and self.lon:`, and the latitude is interpolated first. -/
def OSMElement.locLines (el : OSMElement) : List String :=
  if truthyRat el.lat && truthyRat el.lon then
    ["    osmm:loc \"Point(" ++ pyOptRatStr el.lat ++ " " ++ pyOptRatStr el.lon
      ++ ")\"^^geo:wktLiteral ;"]
  else []

/-- The `osmm:timestamp` line of `to_ttl`. -/
def OSMElement.timestampLines (el : OSMElement) : List String :=
  if truthyStr el.timestamp then
    ["    osmm:timestamp \"" ++ pyOptStr el.timestamp ++ "\"^^xsd:dateTime ;"]
  else []

/-- The `osmm:type` line of `to_ttl`: emitted only when the element tag is a
key of `OSM_ELEMENT_TYPE_LITERAL`. -/
def OSMElement.typeLines (el : OSMElement) : List String :=
  match OSM_ELEMENT_TYPE_LITERAL el.tag with
  | some lit => ["    osmm:type \"" ++ lit ++ "\" ;"]
  | none => []

/-- The `osmm:user` line of `to_ttl`. -/
def OSMElement.userLines (el : OSMElement) : List String :=
  if truthyStr el.user then
    ["    osmm:user \"" ++ pyOptStr el.user ++ "\" ;"]
  else []

/-- The `osmm:userid` line of `to_ttl`. -/
def OSMElement.useridLines (el : OSMElement) : List String :=
  if truthyInt el.userid then
    ["    osmm:userid " ++ pyOptIntStr el.userid ++ " ;"]
  else []

/-- The `osmm:version` line of `to_ttl` (the version is kept as the raw
string from the XML attributes). -/
def OSMElement.versionLines (el : OSMElement) : List String :=
  if truthyStr el.version then
    ["    osmm:version " ++ pyOptStr el.version ++ " ;"]
  else []

/-- The per-tag lines of `to_ttl`: one `osmt:` literal line per pair, plus the
extra caster line when a tag caster is attached and recognizes the
encoded key. -/
def tagLines (tagcaster : Bool) : List (String × String) → List String
  | [] => []
  | (k, v) :: rest =>
    let ek := osmrdf_tagkey_encode k
    (["    osmt:" ++ ek ++ " \"" ++ v ++ "\" ;"] ++
      (if tagcaster && OSMElementTagValueCast.can_cast ek then
        [OSMElementTagValueCast.to_ttl ek v]
      else [])) ++ tagLines tagcaster rest

/-- The `osmx:hasnodes` line of `to_ttl`. -/
def OSMElement.ndLines (el : OSMElement) : List String :=
  if ! el.el_osm_nds.isEmpty then
    ["    osmx:hasnodes ("
      ++ String.intercalate " " (el.el_osm_nds.map (fun r => "osmnode:" ++ toString r))
      ++ ") ;"]
  else []

/-- The `osmx:hasmembers` line of `to_ttl`; a member with no role interpolates
Python `None` into the predicate name. -/
def OSMElement.memberLines (el : OSMElement) : List String :=
  if ! el.el_osm_members.isEmpty then
    ["    osmx:hasmembers ("
      ++ String.intercalate " " (el.el_osm_members.map
          (fun m => "[osmx:hasrole" ++ pyOptStr m.2.2 ++ " "
            ++ (OSM_ELEMENT_PREFIX_TABLE m.1).getD "" ++ toString m.2.1 ++ "]"))
      ++ ") ;"]
  else []

/-- `OSMElement.to_ttl` from the source: the lines are appended in the fixed
source order, starting with the subject line and ending with the
terminating dot. -/
def OSMElement.to_ttl (el : OSMElement) : List String :=
  el.basegroup ::
    (el.changesetLines ++ el.locLines ++ el.timestampLines ++ el.typeLines
      ++ el.userLines ++ el.useridLines ++ el.versionLines
      ++ tagLines el.tagcaster el.el_osm_tags
      ++ el.ndLines ++ el.memberLines ++ ["."])

/-- `OSMElement.can_output` from the source.  When the element was built with
the constructor default `xml_filter=None`, Python evaluates
`None.can_tag(...)` and raises `AttributeError`; this is the error case. -/
def OSMElement.can_output (el : OSMElement) : Except String Bool :=
  match el.xml_filter with
  | none => Except.error "AttributeError"
  | some f => Except.ok (f.can_tag el.tag)

/-- One parsed retagging rule, as built by `OSMElementTagger.parse_rules`:
`i` is the rule index (its position in the file), `op` the operation string
(`+` or `-`), `xt` the element-kind list (`none` for the `*` wildcard),
`xa` the (unused) attribute filter, `xack`/`xacv` the key and value taken
from the `key=value` field. -/
structure RetagRule where
  i : Nat
  op : String
  xt : Option (List String)
  xa : Option String
  xack : String
  xacv : String
deriving DecidableEq

/-- The inner loop of `OSMElementTagger.retag` for one rule: scan the pairs
of `new_tags`, rebuilding `new_tags_temp` from scratch.  For a `-` rule a
matching pair is dropped and the rule index removed from `left_rules`
(Python `list.remove` raises `ValueError` when a second pair matches); for a
`+` rule the first matching pair stops the scan (`break`) before the pair is
re-appended, so the matched pair and every later pair are dropped.  The
match test is the Python substring test of the tag key in the rule key. -/
def scanRule (rule : RetagRule) :
    List (String × String) → List Nat →
      Except String (List (String × String) × List Nat)
  | [], left => Except.ok ([], left)
  | (k, v) :: rest, left =>
    if rule.op = "-" then
      if pyIn k rule.xack then
        match listRemove left rule.i with
        | Except.error e => Except.error e
        | Except.ok left2 => scanRule rule rest left2
      else
        match scanRule rule rest left with
        | Except.error e => Except.error e
        | Except.ok (temp, left2) => Except.ok ((k, v) :: temp, left2)
    else if rule.op = "+" then
      if pyIn k rule.xack then
        match listRemove left rule.i with
        | Except.error e => Except.error e
        | Except.ok left2 => Except.ok ([], left2)
      else
        match scanRule rule rest left with
        | Except.error e => Except.error e
        | Except.ok (temp, left2) => Except.ok ((k, v) :: temp, left2)
    else
      match scanRule rule rest left with
      | Except.error e => Except.error e
      | Except.ok (temp, left2) => Except.ok ((k, v) :: temp, left2)

/-- The outer rule loop of `OSMElementTagger.retag`.  `base` is `new_tags`:
in the source the assignment `new_tags = new_tags_temp` sits after this loop,
so every rule scans the same original list and only the `new_tags_temp` of
the last applicable rule survives; a rule whose kind list excludes the
element is only removed from `left_rules`. -/
def retagRules (element : String) (base : List (String × String)) :
    List RetagRule → List (String × String) → List Nat →
      Except String (List (String × String) × List Nat)
  | [], temp, left => Except.ok (temp, left)
  | rule :: rest, temp, left =>
    match rule.xt with
    | some xt =>
      if element ∈ xt then
        match scanRule rule base left with
        | Except.error e => Except.error e
        | Except.ok (temp2, left2) => retagRules element base rest temp2 left2
      else
        match listRemove left rule.i with
        | Except.error e => Except.error e
        | Except.ok left2 => retagRules element base rest temp left2
    | none =>
      match scanRule rule base left with
      | Except.error e => Except.error e
      | Except.ok (temp2, left2) => retagRules element base rest temp2 left2

/-- `OSMElementTagger.retag` from the source (with `rules` the parsed rule
list, `[]` standing for the falsy `None`): run the rule loop starting from
`new_tags_temp = []` and `left_rules = range(len(rules))`, then append one
`(key, value)` pair for every still-unsatisfied `+` rule, in index order. -/
def OSMElementTagger.retag (rules : List RetagRule) (element : String)
    (de_facto_tags : List (String × String)) :
    Except String (List (String × String)) :=
  if rules.isEmpty then Except.ok de_facto_tags
  else
    match retagRules element de_facto_tags rules [] (List.range rules.length) with
    | Except.error e => Except.error e
    | Except.ok (temp, left) =>
      Except.ok (temp ++ left.filterMap (fun idx =>
        match rules.get? idx with
        | some r => if r.op = "+" then some (r.xack, r.xacv) else none
        | none => none))

/-- `osmrdf_node_xml2ttl` from the source, after the XML parse: the prefix
block, a blank line, the element block, a final blank line. -/
def osmrdf_node_xml2ttl_core (el : OSMElement) : String :=
  String.intercalate "\n" (RDF_TURTLE_PREFIXES ++ [""] ++ el.to_ttl ++ [""])

/-- `osmrdf_way_xml2ttl` from the source, after the XML parse: same assembly
as the node conversion. -/
def osmrdf_way_xml2ttl_core (el : OSMElement) : String :=
  String.intercalate "\n" (RDF_TURTLE_PREFIXES ++ [""] ++ el.to_ttl ++ [""])

/-- `osmrdf_relation_xml2ttl` from the source, after the XML parse.  Unlike
the node and way conversions, the two debug lines are active here: after the
final blank line the raw input XML is appended, each of its lines prefixed
with a `#`. -/
def osmrdf_relation_xml2ttl_core (el : OSMElement) (data_xml : String) : String :=
  String.intercalate "\n"
    (RDF_TURTLE_PREFIXES ++ [""] ++ el.to_ttl
      ++ ["", "# " ++ String.intercalate "\n# " (pySplitNl data_xml)])

/-! ## Lemmas about the tag key encoder -/

lemma encodeChars_append (l1 l2 : List Char) :
    encodeChars (l1 ++ l2) = encodeChars l1 ++ encodeChars l2 := by
  induction l1 with
  | nil => rfl
  | cons c cs ih => by_cases h : c = ' ' <;> simp [encodeChars, h, ih]

lemma space_not_mem_encodeChars (l : List Char) : ' ' ∉ encodeChars l := by
  induction l with
  | nil => simp [encodeChars]
  | cons c cs ih =>
    simp only [encodeChars, List.mem_append]
    by_cases h : c = ' '
    · rw [if_pos h]
      rintro (hm | hm)
      · revert hm; decide
      · exact ih hm
    · rw [if_neg h]
      rintro (hm | hm)
      · simp only [List.mem_singleton] at hm
        exact h hm.symm
      · exact ih hm

lemma encodeChars_of_not_mem (l : List Char) (h : ' ' ∉ l) : encodeChars l = l := by
  induction l with
  | nil => rfl
  | cons c cs ih =>
    have hc : ¬ c = ' ' := by
      intro e
      exact h (e ▸ List.mem_cons_self c cs)
    have hcs : encodeChars cs = cs := ih (fun hm => h (List.mem_cons_of_mem c hm))
    simp [encodeChars, hc, hcs]

/-- Claim C8: `osmrdf_tagkey_encode` replaces each space with `%20` and leaves
every other character unchanged (it maps `" "` to `"%20"`, fixes every
space-free single character, and distributes over concatenation); hence
`encode " a b " = "%20a%20b%20"`, and encoding is idempotent. -/
theorem claim_C8_encode :
    osmrdf_tagkey_encode " a b " = "%20a%20b%20"
    ∧ (∀ x : String,
        osmrdf_tagkey_encode (osmrdf_tagkey_encode x) = osmrdf_tagkey_encode x)
    ∧ (∀ s t : String,
        osmrdf_tagkey_encode (s ++ t) = osmrdf_tagkey_encode s ++ osmrdf_tagkey_encode t)
    ∧ osmrdf_tagkey_encode " " = "%20"
    ∧ (∀ c : Char, ¬ c = ' ' →
        osmrdf_tagkey_encode (String.mk [c]) = String.mk [c]) := by
  refine ⟨by decide, ?_, ?_, by decide, ?_⟩
  · intro x
    show String.mk (encodeChars (encodeChars x.data)) = String.mk (encodeChars x.data)
    rw [encodeChars_of_not_mem _ (space_not_mem_encodeChars x.data)]
  · intro s t
    show String.mk (encodeChars (s.data ++ t.data))
      = String.mk (encodeChars s.data ++ encodeChars t.data)
    rw [encodeChars_append]
  · intro c hc
    show String.mk (encodeChars [c]) = String.mk [c]
    simp [encodeChars, hc]

/-- Witness for C8: the hypothesis-bearing conjunct applied at `x`. -/
theorem claim_C8_encode_witness :
    osmrdf_tagkey_encode (String.mk ['x']) = String.mk ['x'] :=
  claim_C8_encode.2.2.2.2 'x' (by decide)

/-! ## The element filter -/

/-- Claim C9: `can_tag` allows everything when neither list is configured
(Python truthiness: unset and empty behave alike); in general it returns
`true` exactly when (the allow-list is not truthy or the kind is in it) and
(the deny-list is not truthy or the kind is not in it); and a kind present in
the deny-list is always refused, regardless of the allow-list. -/
theorem claim_C9_can_tag (f : OSMElementFilter) (tag : String) :
    ((truthyList f.xml_tags = false ∧ truthyList f.xml_tags_not = false) →
      f.can_tag tag = true)
    ∧ (f.can_tag tag = true ↔
        ((truthyList f.xml_tags = false ∨ tag ∈ f.xml_tags.getD [])
          ∧ (truthyList f.xml_tags_not = false ∨ tag ∉ f.xml_tags_not.getD [])))
    ∧ (∀ l : List String, f.xml_tags_not = some l → tag ∈ l →
        f.can_tag tag = false) := by
  refine ⟨?_, ?_, ?_⟩
  · rintro ⟨h1, h2⟩
    simp [OSMElementFilter.can_tag, h1, h2]
  · by_cases h1 : truthyList f.xml_tags
      <;> by_cases h2 : truthyList f.xml_tags_not
      <;> by_cases h3 : tag ∈ f.xml_tags.getD []
      <;> by_cases h4 : tag ∈ f.xml_tags_not.getD []
      <;> simp [OSMElementFilter.can_tag, h1, h2, h3, h4]
  · intro l hl hmem
    have h2 : truthyList f.xml_tags_not = true := by
      rw [hl]
      have hne : l ≠ [] := List.ne_nil_of_mem hmem
      simp [truthyList, List.isEmpty_eq_false, hne]
    have h4 : tag ∈ f.xml_tags_not.getD [] := by
      rw [hl]
      exact hmem
    simp [OSMElementFilter.can_tag, h2, h4]

/-- Witness for C9: a filter deny-listing `node` refuses `node` even though
the allow-list mentions a different kind. -/
theorem claim_C9_can_tag_witness :
    OSMElementFilter.can_tag { xml_tags := some ["way"], xml_tags_not := some ["node"] } "node"
      = false :=
  (claim_C9_can_tag { xml_tags := some ["way"], xml_tags_not := some ["node"] } "node").2.2
    ["node"] rfl (by decide)

/-! ## can_output without a filter -/

/-- Claim C10: `can_output` is not total in the filter: on an element built
with the constructor default `xml_filter=None` it fails (Python raises
`AttributeError` on `None.can_tag`) instead of defaulting to allow, and it
succeeds exactly on elements carrying a filter instance, returning that
verdict of that filter. -/
theorem claim_C10_can_output (el : OSMElement) :
    (el.xml_filter = none → el.can_output = Except.error "AttributeError")
    ∧ (∀ f : OSMElementFilter, el.xml_filter = some f →
        el.can_output = Except.ok (f.can_tag el.tag)) := by
  constructor
  · intro h
    simp [OSMElement.can_output, h]
  · intro f h
    simp [OSMElement.can_output, h]

/-- Witness for C10: a node element built with the defaults has no filter and
`can_output` fails on it. -/
theorem claim_C10_can_output_witness :
    OSMElement.can_output { tag := "node" } = Except.error "AttributeError" :=
  (claim_C10_can_output { tag := "node" }).1 rfl

/-! ## Lemmas about the retagging rule engine -/

lemma filter_eq_self_of_countP_zero (p : α → Bool) (l : List α)
    (h : l.countP p = 0) : l.filter (fun a => ! p a) = l := by
  refine List.filter_eq_self.mpr ?_
  intro a ha
  have := List.countP_eq_zero.mp h a ha
  simp [Bool.not_eq_true] at this
  simp [this]

lemma scanRule_minus_nil (r : RetagRule) (hop : r.op = "-")
    (tags : List (String × String)) :
    scanRule r tags [] =
      if tags.countP (fun t => pyIn t.1 r.xack) = 0 then
        Except.ok (tags, ([] : List Nat))
      else Except.error "ValueError" := by
  induction tags with
  | nil => simp [scanRule]
  | cons hd tl ih =>
    obtain ⟨k, v⟩ := hd
    rw [List.countP_cons]
    by_cases h : pyIn k r.xack = true
    · simp [scanRule, hop, h, listRemove]
    · rw [show scanRule r ((k, v) :: tl) [] =
          (match scanRule r tl [] with
            | Except.error e => Except.error e
            | Except.ok (temp, left2) => Except.ok ((k, v) :: temp, left2)) from by
        simp [scanRule, hop, h]]
      rw [ih]
      by_cases h0 : tl.countP (fun t => pyIn t.1 r.xack) = 0 <;> simp [h0, h]

lemma scanRule_minus_zero (r : RetagRule) (hop : r.op = "-") (hi : r.i = 0)
    (tags : List (String × String)) :
    scanRule r tags [0] =
      if tags.countP (fun t => pyIn t.1 r.xack) = 0 then Except.ok (tags, [0])
      else if tags.countP (fun t => pyIn t.1 r.xack) = 1 then
        Except.ok (tags.filter (fun t => ! pyIn t.1 r.xack), ([] : List Nat))
      else Except.error "ValueError" := by
  induction tags with
  | nil => simp [scanRule]
  | cons hd tl ih =>
    obtain ⟨k, v⟩ := hd
    rw [List.countP_cons, List.filter_cons]
    by_cases h : pyIn k r.xack = true
    · rw [show scanRule r ((k, v) :: tl) [0] = scanRule r tl [] from by
        simp [scanRule, hop, hi, h, listRemove]]
      rw [scanRule_minus_nil r hop tl]
      by_cases h0 : tl.countP (fun t => pyIn t.1 r.xack) = 0
      · have hf := filter_eq_self_of_countP_zero (fun t => pyIn t.1 r.xack) tl h0
        simp [h, h0, hf]
      · simp [h, h0]
    · rw [show scanRule r ((k, v) :: tl) [0] =
          (match scanRule r tl [0] with
            | Except.error e => Except.error e
            | Except.ok (temp, left2) => Except.ok ((k, v) :: temp, left2)) from by
        simp [scanRule, hop, h]]
      rw [ih]
      by_cases h0 : tl.countP (fun t => pyIn t.1 r.xack) = 0
      · simp [h, h0]
      · by_cases h1 : tl.countP (fun t => pyIn t.1 r.xack) = 1 <;> simp [h, h0, h1]

lemma retag_single_rule (r : RetagRule) (hi : r.i = 0) (ks : List String)
    (hxt : r.xt = some ks) (e : String) (tags : List (String × String)) :
    OSMElementTagger.retag [r] e tags =
      if e ∈ ks then
        match scanRule r tags [0] with
        | Except.error err => Except.error err
        | Except.ok (temp, left) =>
          Except.ok (temp ++ left.filterMap (fun idx =>
            match [r].get? idx with
            | some rr => if rr.op = "+" then some (rr.xack, rr.xacv) else none
            | none => none))
      else Except.ok [] := by
  have hrange : List.range 1 = [0] := by decide
  by_cases he : e ∈ ks
  · rw [if_pos he]
    cases hscan : scanRule r tags [0] with
    | error err =>
      simp [OSMElementTagger.retag, hrange, retagRules, hxt, hi, he, hscan]
    | ok p =>
      obtain ⟨temp, left⟩ := p
      simp [OSMElementTagger.retag, hrange, retagRules, hxt, hi, he, hscan]
  · rw [if_neg he]
    simp [OSMElementTagger.retag, hrange, retagRules, hxt, hi, he, listRemove]

/-- Claim C1 (amended): for a single `remove` rule the substring test runs in
the direction `tag_key in rule_key` (the key of the tag is tested for
containment in the key field of the rule, the reverse of the claimed
direction).  On a targeted kind, when at most one pair matches, `retag` drops
exactly the pairs whose key is a substring of the rule key; when two or more
pairs match, `retag` fails with `ValueError` (the second `list.remove` of the
already-removed rule index); on a kind the rule does not target, `retag`
returns the empty list, dropping every input pair. -/
theorem claim_C1_remove_amended (r : RetagRule) (ks : List String) (e : String)
    (tags : List (String × String)) (hop : r.op = "-") (hi : r.i = 0)
    (hxt : r.xt = some ks) :
    (e ∈ ks → tags.countP (fun t => pyIn t.1 r.xack) ≤ 1 →
      OSMElementTagger.retag [r] e tags =
        Except.ok (tags.filter (fun t => ! pyIn t.1 r.xack)))
    ∧ (e ∈ ks → 2 ≤ tags.countP (fun t => pyIn t.1 r.xack) →
      OSMElementTagger.retag [r] e tags = Except.error "ValueError")
    ∧ (e ∉ ks → OSMElementTagger.retag [r] e tags = Except.ok []) := by
  rw [retag_single_rule r hi ks hxt e tags]
  refine ⟨?_, ?_, ?_⟩
  · intro he hc
    rw [if_pos he, scanRule_minus_zero r hop hi tags]
    by_cases h0 : tags.countP (fun t => pyIn t.1 r.xack) = 0
    · have hf := filter_eq_self_of_countP_zero (fun t => pyIn t.1 r.xack) tags h0
      rw [if_pos h0]
      simp [hop, hf]
    · have h1 : tags.countP (fun t => pyIn t.1 r.xack) = 1 := by omega
      rw [if_neg h0, if_pos h1]
      simp
  · intro he hc
    have h0 : ¬ tags.countP (fun t => pyIn t.1 r.xack) = 0 := by omega
    have h1 : ¬ tags.countP (fun t => pyIn t.1 r.xack) = 1 := by omega
    rw [if_pos he, scanRule_minus_zero r hop hi tags, if_neg h0, if_neg h1]
  · intro hne
    rw [if_neg hne]

/-- Counterexample to C1 as stated.  The rule key is `ab` and the tag key is
`a`: the tag key does not contain `ab` (second conjunct), so under the
claimed direction the pair must be kept, yet `retag` on the targeted kind
removes it (first conjunct).  Also, on the non-targeted kind `way` the claim
says no pair is removed, yet the input pair is gone (third conjunct). -/
theorem claim_C1_remove_counterexample :
    OSMElementTagger.retag [⟨0, "-", some ["node"], none, "ab", ""⟩] "node"
        [("a", "1")] = Except.ok []
    ∧ pyIn "ab" "a" = false
    ∧ OSMElementTagger.retag [⟨0, "-", some ["node"], none, "ab", ""⟩] "way"
        [("x", "1")] = Except.ok [] := by
  refine ⟨rfl, rfl, rfl⟩

/-- Witness for C1 (amended): the three conjuncts applied at concrete
inputs. -/
theorem claim_C1_remove_witness :
    OSMElementTagger.retag [⟨0, "-", some ["node"], none, "created_by", ""⟩] "node"
        [("created_by", "JOSM"), ("amenity", "cafe")]
      = Except.ok (List.filter (fun t => ! pyIn t.1 "created_by")
          [("created_by", "JOSM"), ("amenity", "cafe")])
    ∧ OSMElementTagger.retag [⟨0, "-", some ["node"], none, "created_by", ""⟩] "node"
        [("created_by", "A"), ("created", "B")] = Except.error "ValueError"
    ∧ OSMElementTagger.retag [⟨0, "-", some ["node"], none, "created_by", ""⟩] "relation"
        [("amenity", "cafe")] = Except.ok [] :=
  ⟨(claim_C1_remove_amended _ ["node"] "node" _ rfl rfl rfl).1 (by decide) (by decide),
   (claim_C1_remove_amended _ ["node"] "node" _ rfl rfl rfl).2.1 (by decide) (by decide),
   (claim_C1_remove_amended _ ["node"] "relation" _ rfl rfl rfl).2.2 (by decide)⟩

lemma scanRule_plus_nomatch (r : RetagRule) (hop : r.op = "+")
    (tags : List (String × String)) (left : List Nat) :
    (∀ t ∈ tags, pyIn t.1 r.xack = false) →
      scanRule r tags left = Except.ok (tags, left) := by
  induction tags with
  | nil => intro _; simp [scanRule]
  | cons hd tl ih =>
    intro h
    obtain ⟨k, v⟩ := hd
    have hk : pyIn k r.xack = false := h (k, v) (List.mem_cons_self _ _)
    have htl : ∀ t ∈ tl, pyIn t.1 r.xack = false :=
      fun t ht => h t (List.mem_cons_of_mem _ ht)
    have hne : ¬ r.op = "-" := by rw [hop]; decide
    simp [scanRule, hop, hne, hk, ih htl]

/-- Claim C2 (amended): for a single `add` rule, on a targeted kind, when no
input tag key is a substring of the rule key (in particular the rule key is
absent), `retag` appends exactly one pair equal to the rule pair and keeps
the rest unchanged; but on a kind the rule does not target, `retag` returns
the empty list rather than the unchanged input. -/
theorem claim_C2_add_amended (r : RetagRule) (ks : List String) (e : String)
    (tags : List (String × String)) (hop : r.op = "+") (hi : r.i = 0)
    (hxt : r.xt = some ks) :
    ((∀ t ∈ tags, pyIn t.1 r.xack = false) → e ∈ ks →
      OSMElementTagger.retag [r] e tags =
        Except.ok (tags ++ [(r.xack, r.xacv)]))
    ∧ (e ∉ ks → OSMElementTagger.retag [r] e tags = Except.ok []) := by
  rw [retag_single_rule r hi ks hxt e tags]
  constructor
  · intro h he
    rw [if_pos he, scanRule_plus_nomatch r hop tags [0] h]
    simp [hop]
  · intro hne
    rw [if_neg hne]

/-- Counterexample to C2 as stated.  The rule adds `name=y` and the input is
`[(nam, x)]`: the key `name` is absent from the input (second conjunct), so
the claim predicts `[(nam, x), (name, y)]` on the targeted kind and
`[(nam, x)]` unchanged on a non-targeted kind; the code returns the empty
list in both cases (`nam` is a substring of `name`, so the scan breaks before
re-appending the pair, and the non-targeted path drops the whole list). -/
theorem claim_C2_add_counterexample :
    OSMElementTagger.retag [⟨0, "+", some ["node"], none, "name", "y"⟩] "node"
        [("nam", "x")] = Except.ok []
    ∧ (∀ t ∈ [(("nam" : String), ("x" : String))], ¬ t.1 = "name")
    ∧ OSMElementTagger.retag [⟨0, "+", some ["node"], none, "name", "y"⟩] "way"
        [("nam", "x")] = Except.ok [] := by
  refine ⟨rfl, by decide, rfl⟩

/-- Witness for C2 (amended): both conjuncts applied at concrete inputs. -/
theorem claim_C2_add_witness :
    OSMElementTagger.retag [⟨0, "+", some ["way"], none, "is_in", "BRA"⟩] "way"
        [("amenity", "cafe")]
      = Except.ok ([("amenity", "cafe")] ++ [("is_in", "BRA")])
    ∧ OSMElementTagger.retag [⟨0, "+", some ["way"], none, "is_in", "BRA"⟩] "node"
        [("amenity", "cafe")] = Except.ok [] :=
  ⟨(claim_C2_add_amended _ ["way"] "way" _ rfl rfl rfl).1 (by decide) (by decide),
   (claim_C2_add_amended _ ["way"] "node" _ rfl rfl rfl).2 (by decide)⟩

/-- Claim C3 (code behavior at the failing inputs).  First conjunct: an `add`
rule whose key matches an existing pair does not overwrite that pair in
place — the `break` fires before the pair is re-appended, so the matched
pair and every later pair are dropped (the claim predicts
`[(a, V), (b, 2)]`, the code returns `[]`).  Second conjunct: the working
list is not threaded between rules — the assignment `new_tags = new_tags_temp`
sits after the rule loop, so rule 1 re-scans the original input and the
removal performed by rule 0 is lost (the claim predicts
`[(b, 2), (zz, V)]`, the code returns `[(a, 1), (b, 2), (zz, V)]`). -/
theorem claim_C3_workinglist_code_behavior :
    OSMElementTagger.retag [⟨0, "+", some ["node"], none, "a", "V"⟩] "node"
        [("a", "1"), ("b", "2")] = Except.ok []
    ∧ OSMElementTagger.retag
        [⟨0, "-", some ["node"], none, "a", ""⟩,
         ⟨1, "+", some ["node"], none, "zz", "V"⟩]
        "node" [("a", "1"), ("b", "2")]
      = Except.ok [("a", "1"), ("b", "2"), ("zz", "V")] := by
  refine ⟨rfl, rfl⟩

/-- Claim C4 (code behavior at the failing input).  The guard on the
`osmm:loc` line is the Python truthiness test `if self.lat and self.lon:`, so
a node carrying `lat=0.0, lon=2.0` — both coordinates present — emits no
`osmm:loc` line (first conjunct), although the claim says it must.  With
nonzero coordinates the line is emitted, latitude textually first (second
conjunct), and with a missing latitude it is not (third conjunct). -/
theorem claim_C4_loc_code_behavior :
    OSMElement.to_ttl { tag := "node", id := some 1, lat := some 0, lon := some 2 } =
      ["osmnode:1", "    osmm:type \"n\" ;", "."]
    ∧ OSMElement.to_ttl { tag := "node", id := some 1, lat := some 1, lon := some 2 } =
      ["osmnode:1", "    osmm:loc \"Point(1.0 2.0)\"^^geo:wktLiteral ;",
        "    osmm:type \"n\" ;", "."]
    ∧ OSMElement.to_ttl { tag := "node", id := some 1, lon := some 2 } =
      ["osmnode:1", "    osmm:type \"n\" ;", "."] := by
  refine ⟨rfl, rfl, rfl⟩

/-- Claim C5 (amended): `osmm:type` is emitted with literal `n` for nodes and
`w` for ways, but a relation element emits no `osmm:type` line at all: the
type-literal table is keyed by the string `rel`, which never equals the
element tag `relation`. -/
theorem claim_C5_type_amended (el : OSMElement) :
    (el.tag = "node" → "    osmm:type \"n\" ;" ∈ el.to_ttl)
    ∧ (el.tag = "way" → "    osmm:type \"w\" ;" ∈ el.to_ttl)
    ∧ (el.tag = "relation" → el.typeLines = []) := by
  refine ⟨?_, ?_, ?_⟩
  · intro h
    have hl : el.typeLines = ["    osmm:type \"n\" ;"] := by
      simp [OSMElement.typeLines, OSM_ELEMENT_TYPE_LITERAL, h]
    simp [OSMElement.to_ttl, hl]
  · intro h
    have hl : el.typeLines = ["    osmm:type \"w\" ;"] := by
      simp [OSMElement.typeLines, OSM_ELEMENT_TYPE_LITERAL, h]
    simp [OSMElement.to_ttl, hl]
  · intro h
    simp [OSMElement.typeLines, OSM_ELEMENT_TYPE_LITERAL, h]

/-- Counterexample to C5 as stated: a relation element renders with no
`osmm:type` line (the claim says its block contains `osmm:type "r"`). -/
theorem claim_C5_type_counterexample :
    OSMElement.to_ttl { tag := "relation", id := some 1 } = ["osmrel:1", "."]
    ∧ ¬ "    osmm:type \"r\" ;" ∈ OSMElement.to_ttl { tag := "relation", id := some 1 } := by
  have h : OSMElement.to_ttl { tag := "relation", id := some 1 } = ["osmrel:1", "."] := rfl
  refine ⟨h, ?_⟩
  rw [h]
  decide

/-- Witness for C5 (amended): the three conjuncts applied at concrete
elements. -/
theorem claim_C5_type_witness :
    "    osmm:type \"n\" ;" ∈ OSMElement.to_ttl { tag := "node", id := some 7 }
    ∧ "    osmm:type \"w\" ;" ∈ OSMElement.to_ttl { tag := "way", id := some 8 }
    ∧ OSMElement.typeLines { tag := "relation", id := some 9 } = [] :=
  ⟨(claim_C5_type_amended { tag := "node", id := some 7 }).1 rfl,
   (claim_C5_type_amended { tag := "way", id := some 8 }).2.1 rfl,
   (claim_C5_type_amended { tag := "relation", id := some 9 }).2.2 rfl⟩

set_option maxRecDepth 100000 in
/-- Claim C6 (code behavior at the failing input).  The preamble has exactly
9 PREFIX lines, and the node conversion produces exactly
preamble / blank / element block / final blank with nothing after (first two
conjuncts).  But the relation conversion appends the input XML after the
final blank line, one `#`-prefixed comment line per input line (third
conjunct) — the two lines the source marks as commented-out debug output are
active in `osmrdf_relation_xml2ttl`. -/
theorem claim_C6_assembler_code_behavior :
    RDF_TURTLE_PREFIXES.length = 9
    ∧ osmrdf_node_xml2ttl_core { tag := "node", id := some 1 } =
        String.intercalate "\n" (RDF_TURTLE_PREFIXES ++ [""]
          ++ OSMElement.to_ttl { tag := "node", id := some 1 } ++ [""])
    ∧ osmrdf_relation_xml2ttl_core { tag := "relation", id := some 1 }
          "<relation id=\"1\"/>" =
        String.intercalate "\n" (RDF_TURTLE_PREFIXES ++ [""]
          ++ OSMElement.to_ttl { tag := "relation", id := some 1 } ++ [""])
        ++ "\n# <relation id=\"1\"/>" := by
  refine ⟨rfl, rfl, ?_⟩
  decide

/-- Claim C7 (amended): rendering an element constructed without an `id`
does not raise anything — `to_ttl` is total and the subject line is the
kind prefix followed by the string `None` (Python interpolates
`str(None)`). -/
theorem claim_C7_missing_id_amended (el : OSMElement) (h : el.id = none) :
    el.to_ttl.head? = some ((OSM_ELEMENT_PREFIX_TABLE el.tag).getD "" ++ "None") := by
  simp [OSMElement.to_ttl, OSMElement.basegroup, h, pyOptIntStr]

/-- Counterexample to C7 as stated: an id-less node renders to a complete
block whose subject is the invalid `osmnode:None` — no failure occurs. -/
theorem claim_C7_missing_id_counterexample :
    OSMElement.to_ttl { tag := "node" } =
      ["osmnode:None", "    osmm:type \"n\" ;", "."] := rfl

/-- Witness for C7 (amended): applied to an id-less way element. -/
theorem claim_C7_missing_id_witness :
    (OSMElement.to_ttl { tag := "way" }).head? =
      some ((OSM_ELEMENT_PREFIX_TABLE "way").getD "" ++ "None") :=
  claim_C7_missing_id_amended { tag := "way" } rfl
